import Mathlib

/-!
Verification of the EthernetIP-SNMP-MQTT bridge against its specification.

Shallow embedding of the data plane of the repository:
services/snmp_service.py, services/polling_service.py,
services/mqtt_service.py and services/ethernetip_service.py.
Network effects are modelled by explicit oracle parameters and each
stateful operation is expressed as a pure function from a state and the
oracle answers to the new state together with the list of externally
visible actions it performed.  Wall-clock time is a natural number of
milliseconds (or seconds where the source uses seconds).
-/

/-! ## Python-value helpers -/

/-- Value arriving from an MQTT JSON payload or an HTTP form: the bridge
only ever coerces it with the Python builtins int and str, so a string or
integer alternative suffices for the embedding. -/
inductive PyVal where
  | str (s : String)
  | int (n : Int)
deriving Repr, DecidableEq

/-- Digits of a decimal literal, as the Python int builtin accepts after
sign processing; none when a character is not a digit or the list is
empty. -/
def digitsToNat : List Char → Option Nat
  | [] => none
  | cs => if cs.all Char.isDigit
      then some (cs.foldl (fun a c => 10 * a + (c.toNat - 48)) 0)
      else none

/-- Model of the Python str.upper method (character-wise upper-casing). -/
def pyUpper (s : String) : String := ⟨s.data.map Char.toUpper⟩

/-- Model of the Python str.lower method (character-wise lower-casing). -/
def pyLower (s : String) : String := ⟨s.data.map Char.toLower⟩

/-- Model of the Python str.startswith test. -/
def pyStartsWith (s pre : String) : Bool := pre.data.isPrefixOf s.data

/-- Whitespace stripping of the Python int builtin. -/
def pyStrip (cs : List Char) : List Char :=
  ((cs.dropWhile Char.isWhitespace).reverse.dropWhile Char.isWhitespace).reverse

/-- Model of the Python str.split method with a one-character separator:
split at every occurrence, keeping empty segments. -/
def splitOnCharList (sep : Char) : List Char → List (List Char)
  | [] => [[]]
  | c :: rest =>
    let r := splitOnCharList sep rest
    if c = sep then [] :: r
    else (c :: r.headD []) :: r.tail

/-- String wrapper of splitOnCharList. -/
def pySplit (sep : Char) (s : String) : List String :=
  (splitOnCharList sep s.data).map (fun cs => String.mk cs)

/-- Model of the Python int builtin applied to a string: surrounding
whitespace is ignored, an optional sign is followed by at least one
digit; anything else raises ValueError, modelled as none. -/
def parsePyInt (s : String) : Option Int :=
  match pyStrip s.data with
  | [] => none
  | c :: rest =>
    if c = '-' then (digitsToNat rest).map (fun n => -(n : Int))
    else if c = '+' then (digitsToNat rest).map (fun n => (n : Int))
    else (digitsToNat (c :: rest)).map (fun n => (n : Int))

/-- Model of the Python int builtin on the values a command can carry. -/
def pyToInt : PyVal → Option Int
  | .int n => some n
  | .str s => parsePyInt s

/-- Model of the Python str builtin on the values a command can carry. -/
def pyToStr : PyVal → String
  | .str s => s
  | .int n => toString n

/-- Model of the Python substring test, sub in s. -/
def pyInStr (sub s : String) : Bool :=
  s.data.tails.any (fun t => sub.data.isPrefixOf t)

/-! ## SNMP write path (services/snmp_service.py, write_oid) -/

/-- ASN.1 variant constructed by SNMPService.write_oid before issuing the
set request (pysnmp rfc1902 classes). -/
inductive SnmpValue where
  | Integer32 (n : Int)
  | OctetString (s : String)
  | Counter64 (n : Int)
  | Unsigned32 (n : Int)
  | IpAddress (s : String)
deriving Repr, DecidableEq

/-- Type coercion performed by write_oid (snmp_service.py lines 346-359):
the data type label is upper-cased and dispatched over the label groups;
int coercion failure (ValueError/TypeError) yields none, which the
source turns into an early failure return. -/
def coerceSnmpValue (data_type : String) (value : PyVal) : Option SnmpValue :=
  let dt := pyUpper data_type
  if dt ∈ ["INTEGER", "INT", "COUNTER32", "GAUGE32"] then
    (pyToInt value).map SnmpValue.Integer32
  else if dt ∈ ["STRING", "OCTETSTRING", "DISPLAYSTRING"] then
    some (SnmpValue.OctetString (pyToStr value))
  else if dt ∈ ["COUNTER64"] then
    (pyToInt value).map SnmpValue.Counter64
  else if dt ∈ ["UNSIGNED32"] then
    (pyToInt value).map SnmpValue.Unsigned32
  else if dt ∈ ["IPADDRESS"] then
    some (SnmpValue.IpAddress (pyToStr value))
  else
    some (SnmpValue.OctetString (pyToStr value))

/-- Outcome of one SNMP set request on the wire, as seen by write_oid
after the pysnmp set_cmd call: an error indication, an error status, or
success. -/
inductive SetReply where
  | errInd (msg : String)
  | errStatus (msg : String)
  | ok
deriving Repr, DecidableEq

/-- Result of write_oid: the set requests actually issued on the wire
(oid together with the coerced value), the success flag and the message
of the returned pair. -/
structure WriteTrace where
  requests : List (String × SnmpValue)
  success : Bool
  message : String
deriving Repr, DecidableEq

/-- SNMPService.write_oid (snmp_service.py lines 333-410): coerce the
value, on coercion failure return failure without any request; otherwise
issue exactly one set request and map the reply onto the returned pair.
The network is the oracle net. -/
def write_oid (net : String → SnmpValue → SetReply) (oid : String)
    (value : PyVal) (data_type : String) : WriteTrace :=
  match coerceSnmpValue data_type value with
  | none =>
    { requests := [], success := false,
      message := "Invalid value for data type " ++ data_type }
  | some v =>
    match net oid v with
    | .errInd m => { requests := [(oid, v)], success := false, message := m }
    | .errStatus m => { requests := [(oid, v)], success := false, message := m }
    | .ok => { requests := [(oid, v)], success := true, message := "Write successful" }

/-! ## Polling interval gate (services/polling_service.py) -/

/-- Effective polling interval (polling_service.py line 204 and 277):
the Python expression config.polling_interval or 1000 falls back to 1000
when the stored interval is missing or zero. -/
def effInterval : Option Nat → Nat
  | none => 1000
  | some n => if n = 0 then 1000 else n

/-- Per-device rate gate of the poll worker (polling_service.py lines
206-211 and 279-284, executed under the lock): when a last poll time is
recorded and fewer than interval milliseconds have elapsed, skip and
leave the stamp; otherwise stamp now and proceed.  Returns (proceed,
new stamp). -/
def pollGate (interval : Nat) (last : Option Nat) (now : Nat) : Bool × Nat :=
  match last with
  | some t => if now - t < interval then (false, t) else (true, now)
  | none => (true, now)

/-- Successful read cycles produced by a sequence of worker invocations
at the given wall-clock instants, starting from a recorded last poll
time: each invocation runs the gate and performs its reads exactly when
the gate lets it through. -/
def runPolls (interval : Nat) : Option Nat → List Nat → List Nat
  | _, [] => []
  | last, now :: rest =>
    let g := pollGate interval last now
    if g.1 then now :: runPolls interval (some g.2) rest
    else runPolls interval (some g.2) rest

/-! ## SNMP subtree discovery (services/snmp_service.py, discover_objects) -/

/-- One variable binding returned by a GET-NEXT response: the dotted OID
string, the stringified value, the pretty-printed label of the OID
object and the class name of the value object. -/
structure VarBind where
  oid : String
  value : String
  pretty : String
  vbType : String
deriving Repr, DecidableEq

/-- Discovered-object record appended by the walk (snmp_service.py
lines 197-205). -/
structure DiscObj where
  oid : String
  name : String
  value : String
  data_type : String
  description : String
  access : String
  status : String
deriving Repr, DecidableEq

/-- Walk limit max_objects (snmp_service.py line 119). -/
def max_objects : Nat := 100

/-- Display name extraction (snmp_service.py line 173): when the pretty
print contains a MIB separator take the first dotted component of its
last part, otherwise synthesize OID_ followed by the last OID arc. -/
def discName (pretty oidStr : String) : String :=
  if pyInStr "::" pretty then
    (((pretty.splitOn "::").getLastD "").splitOn ".").headD ""
  else
    "OID_" ++ ((oidStr.splitOn ".").getLastD "")

/-- Record built from one variable binding (snmp_service.py lines
164-205): the value is truncated to 50 characters, access and status are
fixed labels. -/
def mkDiscObj (vb : VarBind) : DiscObj :=
  { oid := vb.oid,
    name := discName vb.pretty vb.oid,
    value := if vb.value.length > 50 then vb.value.take 50 else vb.value,
    data_type := vb.vbType,
    description := "SNMP OID: " ++ vb.oid,
    access := "read-only",
    status := "current" }

/-- Reply of one GET-NEXT request: error indication, error status, or a
list of variable bindings. -/
inductive NextReply where
  | errInd (msg : String)
  | errStatus (msg : String)
  | binds (bs : List VarBind)
deriving Repr

/-- Inner for-loop of the walk (snmp_service.py lines 152-213): process
the bindings of one response in order; a binding whose OID does not have
the base OID as a string prefix returns immediately, otherwise the
record is appended, the cursor advances and reaching max_objects returns
immediately.  The boolean result records whether the walk returned (true)
or fell off the response and continues the outer loop (false). -/
def walkBinds (base : String) :
    List VarBind → List DiscObj → Nat → String →
    List DiscObj × Nat × String × Bool
  | [], acc, count, cur => (acc, count, cur, false)
  | vb :: rest, acc, count, cur =>
    if ¬ pyStartsWith vb.oid base then (acc, count, cur, true)
    else
      let acc2 := acc ++ [mkDiscObj vb]
      if count + 1 ≥ max_objects then (acc2, count + 1, vb.oid, true)
      else walkBinds base rest acc2 (count + 1) vb.oid

/-- Outer while-loop of the walk (snmp_service.py lines 133-213) driven
by the network oracle net, with fuel standing for the remaining wall
clock before the 15 second cap: fuel exhaustion, an error reply, an
escaped OID or the max_objects limit all end the walk with the records
gathered so far. -/
def walkLoop (net : String → NextReply) (base : String) :
    Nat → List DiscObj → Nat → String → List DiscObj
  | 0, acc, _, _ => acc
  | fuel + 1, acc, count, cur =>
    if count ≥ max_objects then acc
    else
      match net cur with
      | .errInd _ => acc
      | .errStatus _ => acc
      | .binds bs =>
        let r := walkBinds base bs acc count cur
        if r.2.2.2 then r.1 else walkLoop net base fuel r.1 r.2.1 r.2.2.1

/-- SNMPService.discover_objects (snmp_service.py lines 103-240): run
the walk starting at the base OID and return success together with the
gathered records; a timeout of the 15 second cap (fuel exhaustion) is
caught and still returns this pair.  The only failure return of the
source is an exception before the walk starts (library import), which
has no counterpart in the embedding. -/
def discover_objects (net : String → NextReply) (fuel : Nat)
    (base : String) : Bool × List DiscObj :=
  (true, walkLoop net base fuel [] 0 base)

/-! ## JSON payload construction (services/polling_service.py, _publish_device_data) -/

/-- Python dict insertion: assigning to an existing key replaces the
value in place, a new key is appended, preserving insertion order. -/
def dictInsert {α : Type} (k : String) (v : α) :
    List (String × α) → List (String × α)
  | [] => [(k, v)]
  | (k2, v2) :: rest =>
    if k2 = k then (k2, v) :: rest else (k2, v2) :: dictInsert k v rest

/-- Python dict deletion of a key. -/
def dictErase {α : Type} (k : String) (d : List (String × α)) :
    List (String × α) :=
  d.filter (fun kv => kv.1 ≠ k)

/-- JSON payload dict built by _publish_device_data
(polling_service.py lines 457-463): the Python dict literal opens with
the HWID key, splices all readings, and closes with the Timestamp key;
duplicate keys follow dict-literal semantics (later assignment replaces
in place). -/
def buildJsonPayload {α : Type} (hwid : α) (readings : List (String × α))
    (ts : α) : List (String × α) :=
  dictInsert "Timestamp" ts
    (readings.foldl (fun d kv => dictInsert kv.1 kv.2 d) [("HWID", hwid)])

/-- Round trip of the claim: parse the published JSON payload back into
a dict (JSON serialisation of a string-keyed dict is faithful, so this
is the dict itself) and delete the HWID and Timestamp keys. -/
def roundTrip {α : Type} (hwid : α) (readings : List (String × α))
    (ts : α) : List (String × α) :=
  dictErase "Timestamp" (dictErase "HWID" (buildJsonPayload hwid readings ts))

/-! ## SNMP write by name (services/snmp_service.py, write_by_name) -/

/-- Stored SNMPObject row (models.py lines 58-73), restricted to the
columns write_by_name touches. -/
structure SNMPObjectRec where
  id : Nat
  config_id : Nat
  oid : String
  name : Option String
  data_type : Option String
  access : Option String
  last_value : Option String
  last_read : Option Nat
deriving Repr, DecidableEq

/-- Python truthiness of the nullable access column: None and the empty
string are falsy. -/
def accessTruthy : Option String → Bool
  | none => false
  | some s => s ≠ ""

/-- Guard of the writability rejection (snmp_service.py line 429): the
access column is truthy and its lower-casing does not contain write. -/
def rejectsWrite (access : Option String) : Bool :=
  accessTruthy access && !(pyInStr "write" (pyLower (access.getD "")))

/-- Reading of the claim phrase: the access field contains write. -/
def accessFieldContainsWrite (access : Option String) : Bool :=
  match access with
  | none => false
  | some s => pyInStr "write" s

/-- Result of write_by_name: the set requests issued on the wire, the
returned pair, and the object table after any last value/time update. -/
structure WriteByNameResult where
  writes : List (String × SnmpValue)
  success : Bool
  message : String
  objects : List SNMPObjectRec
deriving Repr, DecidableEq

/-- SNMPService.write_by_name (snmp_service.py lines 412-446): find the
first object matching (config id, parameter name); absent means failure
with no request; a truthy access column whose lower-casing lacks write
means rejection with no request; otherwise delegate to write_oid with
the object data type defaulted to STRING, and on success update the
object last value and last read time. -/
def write_by_name (net : String → SnmpValue → SetReply)
    (objects : List SNMPObjectRec) (config_id : Nat)
    (parameter_name : String) (value : PyVal) (now : Nat) :
    WriteByNameResult :=
  match (objects.filter fun o =>
      o.config_id = config_id ∧ o.name = some parameter_name).head? with
  | none =>
    { writes := [], success := false,
      message := "Parameter not found", objects := objects }
  | some obj =>
    if rejectsWrite obj.access then
      { writes := [], success := false,
        message := "Parameter is read-only", objects := objects }
    else
      let tr := write_oid net obj.oid value (obj.data_type.getD "STRING")
      if tr.success then
        { writes := tr.requests, success := true, message := tr.message,
          objects := objects.map fun o =>
            if o.id = obj.id then
              { o with last_value := some (pyToStr value), last_read := some now }
            else o }
      else
        { writes := tr.requests, success := false, message := tr.message,
          objects := objects }

/-! ## Inbound MQTT command dispatch (services/mqtt_service.py, on_message) -/

/-- Stored SNMPConfig row (models.py lines 17-28), restricted to what
the message handler consults. -/
structure SNMPConfigRec where
  id : Nat
  hwid : Option String
deriving Repr, DecidableEq

/-- Fields of a decoded inbound command payload; each field is optional
because the handler validates presence itself. -/
structure CmdPayload where
  device_id : Option String
  parameter_name : Option String
  value : Option PyVal
  message_id : Option String
deriving Repr, DecidableEq

/-- Inbound MQTT message: topic plus decoded payload, none standing for
a UTF-8 or JSON decode failure. -/
structure InMsg where
  topic : String
  payload : Option CmdPayload
deriving Repr, DecidableEq

/-- Hardware identifier resolution of the handler (mqtt_service.py lines
318-325): split the topic on slashes; with at least two parts the last
part is taken, but the Python truthiness test discards an empty trailing
segment and falls back to the device_id field of the payload. -/
def resolvedHwid (topic device_id : String) : String :=
  let parts := pySplit '/' topic
  if parts.length ≥ 2 then
    let t := parts.getLastD ""
    if t ≠ "" then t else device_id
  else device_id

/-- Hardware identifier resolution in the words of the claim: the
trailing topic segment whenever the topic has at least two segments,
else the device_id field of the payload. -/
def claimResolvedHwid (topic device_id : String) : String :=
  let parts := pySplit '/' topic
  if parts.length ≥ 2 then parts.getLastD "" else device_id

/-- The on_message handler of MQTTService.start_subscriber
(mqtt_service.py lines 291-382), reduced to the write_by_name calls it
dispatches: decode failure, a missing required field, or an unknown
hardware identifier all drop the message with no SNMP write; otherwise
exactly one write_by_name call on the matched configuration is issued,
recorded as (config id, parameter name, value). -/
def on_message (configs : List SNMPConfigRec) (msg : InMsg) :
    List (Nat × String × PyVal) :=
  match msg.payload with
  | none => []
  | some p =>
    match p.device_id, p.parameter_name, p.value with
    | some did, some pname, some v =>
      let search := resolvedHwid msg.topic did
      match (configs.filter fun c => c.hwid = some search).head? with
      | none => []
      | some cfg => [(cfg.id, pname, v)]
    | _, _, _ => []

/-! ## CPPPO RegisterSession probe (services/ethernetip_service.py, GetPLCTime) -/

/-- Little-endian byte encoding of a field of the given byte width, as
produced by the Python struct.pack format characters H, I and Q. -/
def packLE (width v : Nat) : List Nat :=
  (List.range width).map (fun i => v / 256 ^ i % 256)

/-- Little-endian byte decoding, as performed by struct.unpack. -/
def unpackLE (bytes : List Nat) : Nat :=
  bytes.foldr (fun b acc => b + 256 * acc) 0

/-- RegisterSession request frame (ethernetip_service.py lines 77-84):
struct.pack of format HHIIQI in little-endian order with command 0x65
and every other field zero. -/
def registerSessionFrame : List Nat :=
  packLE 2 0x65 ++ packLE 2 0 ++ packLE 4 0 ++ packLE 4 0 ++
    packLE 8 0 ++ packLE 4 0

/-- Outcome of the CPPPO connection probe. -/
inductive EipProbeResult where
  | success
  | errStatus (status : Nat)
  | incomplete (len : Nat)
deriving Repr, DecidableEq

/-- Reply handling of the probe (ethernetip_service.py lines 89-108): a
reply of at least 28 bytes is unpacked, the status word being bytes 8 to
11 little-endian, and the probe succeeds exactly on status zero; a
shorter reply is an incomplete-response failure. -/
def handleRegisterReply (response : List Nat) : EipProbeResult :=
  if response.length ≥ 28 then
    let status := unpackLE ((response.drop 8).take 4)
    if status = 0 then .success else .errStatus status
  else .incomplete response.length

/-- CPPoPLCClient.GetPLCTime (ethernetip_service.py lines 54-118): send
the RegisterSession frame once over a fresh socket and classify the
reply; the result pairs the frames sent with the probe outcome. -/
def GetPLCTime (reply : List Nat) : List (List Nat) × EipProbeResult :=
  ([registerSessionFrame], handleRegisterReply reply)

/-! ## Supervisor reconnect tick, MQTT section (services/polling_service.py, _reconnect_offline_devices) -/

/-- Stored MQTTConfig row after the topic migration
(migrate_topic_prefix.py lines 53-69), restricted to what the reconnect
tick and the subscriber lifecycle consult. -/
structure MQTTConfigRec where
  id : Nat
  subscribe_topic : Option String
  enabled : Bool
deriving Repr, DecidableEq

/-- Python truthiness of the nullable subscribe_topic column. -/
def subscribeTruthy : Option String → Bool
  | none => false
  | some s => s ≠ ""

/-- Reconnect check interval in seconds (polling_service.py line 41). -/
def reconnect_interval : Nat := 10

/-- Externally visible actions of one supervisor tick on one broker: a
connect_broker attempt carrying its outcome, and a restart_subscriber
invocation. -/
inductive SupAction where
  | connectAttempt (id : Nat) (ok : Bool)
  | restartSub (id : Nat)
deriving Repr, DecidableEq

/-- Rate limit of the reconnect tick (polling_service.py lines 396-399):
an attempt is due when no attempt is recorded or at least
reconnect_interval seconds have elapsed. -/
def dueForAttempt (lastAttempt : Option Nat) (now : Nat) : Bool :=
  match lastAttempt with
  | some t => !(now - t < reconnect_interval)
  | none => true

/-- MQTT section of PollingService._reconnect_offline_devices for one
enabled broker (polling_service.py lines 389-410): a connected broker is
skipped; a disconnected broker that is due gets a connect_broker attempt
and then, whenever subscribe_topic is truthy, a restart_subscriber call
issued without consulting the success flag of the attempt.  The oracle
connectOk gives the outcome of the attempt. -/
def reconnectMqttOne (connectOk : Nat → Bool) (statusConnected : Nat → Bool)
    (lastAttempt : Nat → Option Nat) (now : Nat) (cfg : MQTTConfigRec) :
    List SupAction :=
  if statusConnected cfg.id then []
  else if !dueForAttempt (lastAttempt cfg.id) now then []
  else
    SupAction.connectAttempt cfg.id (connectOk cfg.id) ::
      (if subscribeTruthy cfg.subscribe_topic then
        [SupAction.restartSub cfg.id]
      else [])

/-! ## Subscriber lifecycle (services/mqtt_service.py, start_subscriber and stop_subscriber) -/

/-- Nat-keyed assoc-list lookup for the subscriber table. -/
def lookupNat {α : Type} (k : Nat) : List (Nat × α) → Option α
  | [] => none
  | (k2, v) :: rest => if k2 = k then some v else lookupNat k rest

/-- Nat-keyed assoc-list insertion replacing in place, the dict update
semantics of the Python subscriber table. -/
def dictInsertNat {α : Type} (k : Nat) (v : α) :
    List (Nat × α) → List (Nat × α)
  | [] => [(k, v)]
  | (k2, v2) :: rest =>
    if k2 = k then (k2, v) :: rest else (k2, v2) :: dictInsertNat k v rest

/-- State of the MQTT subscriber layer: the tracked subscriber table
(config id to client), the clients whose network loop is running, and a
counter supplying fresh client identities. -/
structure SubState where
  subscribers : List (Nat × Nat)
  active : List Nat
  nextClient : Nat
deriving Repr, DecidableEq

/-- MQTTService.start_subscriber (mqtt_service.py lines 259-423): with a
falsy subscribe_topic it succeeds without effect; otherwise a fresh
client is created, connected, its loop started, and the subscriber table
entry for the config is overwritten with it — a previously tracked
client is neither stopped nor disconnected and stays active. -/
def start_subscriber (cfg : MQTTConfigRec) (s : SubState) : SubState × Bool :=
  if !subscribeTruthy cfg.subscribe_topic then (s, true)
  else
    ({ subscribers := dictInsertNat cfg.id s.nextClient s.subscribers,
       active := s.active ++ [s.nextClient],
       nextClient := s.nextClient + 1 }, true)

/-- MQTTService.stop_subscriber (mqtt_service.py lines 425-440): a
tracked client is loop-stopped, disconnected and removed from the table;
without one the call succeeds with no effect. -/
def stop_subscriber (config_id : Nat) (s : SubState) : SubState × Bool :=
  match lookupNat config_id s.subscribers with
  | some c =>
    ({ subscribers := s.subscribers.filter (fun kv => kv.1 ≠ config_id),
       active := s.active.filter (fun x => x ≠ c),
       nextClient := s.nextClient }, true)
  | none => (s, true)

/-- Start followed by stop for one broker configuration. -/
def startStop (cfg : MQTTConfigRec) (s : SubState) : SubState :=
  (stop_subscriber cfg.id (start_subscriber cfg s).1).1

/-- Client identities already in use are below the fresh counter; both
the initial empty state and every state the lifecycle operations reach
from it satisfy this. -/
def SubState.Fresh (s : SubState) : Prop :=
  (∀ c ∈ s.active, c < s.nextClient) ∧
    (∀ kv ∈ s.subscribers, kv.2 < s.nextClient)

/-! ## Connection status default and poll-worker gating (C10) -/

/-- Liveness record of the per-endpoint status map (snmp_service.py
lines 16-20 and ethernetip_service.py lines 257-261). -/
structure ConnStatus where
  connected : Bool
  last_check : Option Nat
  message : String
deriving Repr, DecidableEq

/-- Default record returned for an endpoint no connect attempt has ever
recorded. -/
def defaultStatus : ConnStatus :=
  { connected := false, last_check := none, message := "Not connected" }

/-- SNMPService.get_connection_status for one device id
(snmp_service.py lines 12-21): the stored record, defaulted. -/
def get_connection_status (statuses : List (Nat × ConnStatus))
    (device_id : Nat) : ConnStatus :=
  (lookupNat device_id statuses).getD defaultStatus

/-- View returned by EthernetIPService.get_connection_status for one
device id (ethernetip_service.py lines 254-267). -/
structure EipStatusView where
  success : Bool
  connected : Bool
  message : String
  last_check : Option Nat
deriving Repr, DecidableEq

/-- EthernetIPService.get_connection_status for one device id: wraps the
stored record, defaulted, into the view dict. -/
def eip_get_connection_status (statuses : List (Nat × ConnStatus))
    (device_id : Nat) : EipStatusView :=
  let st := (lookupNat device_id statuses).getD defaultStatus
  { success := true, connected := st.connected,
    message := st.message, last_check := st.last_check }

/-- Stored EthernetIPConfig row (models.py lines 4-15), restricted to
what the poll worker consults. -/
structure EipConfigRec where
  id : Nat
  enabled : Bool
  polling_interval : Option Nat
deriving Repr, DecidableEq

/-- Stored EthernetIPTag row (models.py lines 44-56), restricted to what
the poll worker consults. -/
structure TagRec where
  id : Nat
  config_id : Nat
  enabled : Bool
deriving Repr, DecidableEq

/-- Externally visible actions of one poll-worker invocation. -/
inductive PollAction where
  | readTag (tagId : Nat)
  | publish
deriving Repr, DecidableEq

/-- PollingService._poll_single_ethernetip_device (polling_service.py
lines 185-252): a missing or disabled config returns at once; a device
whose liveness record is absent or disconnected returns at once; the
rate gate then either skips or stamps; past the gate every enabled tag
of the device is read, and a publish is issued when at least one read
succeeded.  readOk gives the per-tag read outcome; the result pairs the
actions with the new last-poll stamp. -/
def poll_single_ethernetip_device (statuses : List (Nat × ConnStatus))
    (config : Option EipConfigRec) (tags : List TagRec)
    (readOk : Nat → Bool) (lastPoll : Option Nat) (now : Nat) :
    List PollAction × Option Nat :=
  match config with
  | none => ([], lastPoll)
  | some c =>
    if !c.enabled then ([], lastPoll)
    else if !(eip_get_connection_status statuses c.id).connected then
      ([], lastPoll)
    else
      let g := pollGate (effInterval c.polling_interval) lastPoll now
      if !g.1 then ([], some g.2)
      else
        let enabledTags := tags.filter fun t => t.config_id = c.id ∧ t.enabled
        let reads := enabledTags.map fun t => PollAction.readTag t.id
        let anyOk := enabledTags.any fun t => readOk t.id
        (reads ++ (if anyOk then [PollAction.publish] else []), some g.2)

/-! ## Theorems -/

/-- C1: every SNMP write via writeOID sends on the wire exactly the
ASN.1 variant selected by upper-casing dataType — Integer32 for
INTEGER/INT/COUNTER32/GAUGE32, OctetString for
STRING/OCTETSTRING/DISPLAYSTRING, Counter64 for COUNTER64, Unsigned32
for UNSIGNED32, IpAddress for IPADDRESS, OctetString for any other
label — and when the value cannot be coerced into that variant, writeOID
returns failure having issued no SNMP request, hence without retrying. -/
theorem writeOid_variant_and_coercion_failure
    (net : String → SnmpValue → SetReply) (oid : String) (value : PyVal)
    (data_type : String) :
    (write_oid net oid value data_type).requests.length ≤ 1
    ∧ (∀ v, coerceSnmpValue data_type value = some v →
        (write_oid net oid value data_type).requests = [(oid, v)])
    ∧ (coerceSnmpValue data_type value = none →
        (write_oid net oid value data_type).requests = []
          ∧ (write_oid net oid value data_type).success = false)
    ∧ (pyUpper data_type ∈ ["INTEGER", "INT", "COUNTER32", "GAUGE32"] →
        coerceSnmpValue data_type value = (pyToInt value).map SnmpValue.Integer32)
    ∧ (pyUpper data_type ∈ ["STRING", "OCTETSTRING", "DISPLAYSTRING"] →
        coerceSnmpValue data_type value = some (SnmpValue.OctetString (pyToStr value)))
    ∧ (pyUpper data_type = "COUNTER64" →
        coerceSnmpValue data_type value = (pyToInt value).map SnmpValue.Counter64)
    ∧ (pyUpper data_type = "UNSIGNED32" →
        coerceSnmpValue data_type value = (pyToInt value).map SnmpValue.Unsigned32)
    ∧ (pyUpper data_type = "IPADDRESS" →
        coerceSnmpValue data_type value = some (SnmpValue.IpAddress (pyToStr value)))
    ∧ (pyUpper data_type ∉ ["INTEGER", "INT", "COUNTER32", "GAUGE32", "STRING",
          "OCTETSTRING", "DISPLAYSTRING", "COUNTER64", "UNSIGNED32", "IPADDRESS"] →
        coerceSnmpValue data_type value = some (SnmpValue.OctetString (pyToStr value))) := by
  refine ⟨?_, ?_, ?_, ?_, ?_, ?_, ?_, ?_, ?_⟩
  · unfold write_oid
    cases h : coerceSnmpValue data_type value with
    | none => simp
    | some v => cases hn : net oid v <;> simp [hn]
  · intro v hv
    unfold write_oid
    rw [hv]
    cases hn : net oid v <;> simp [hn]
  · intro hv
    unfold write_oid
    rw [hv]
    exact ⟨rfl, rfl⟩
  · intro h
    simp only [List.mem_cons, List.not_mem_nil, or_false] at h
    unfold coerceSnmpValue
    rcases h with h | h | h | h <;> simp [h]
  · intro h
    simp only [List.mem_cons, List.not_mem_nil, or_false] at h
    unfold coerceSnmpValue
    rcases h with h | h | h <;> simp [h]
  · intro h
    unfold coerceSnmpValue
    simp [h]
  · intro h
    unfold coerceSnmpValue
    simp [h]
  · intro h
    unfold coerceSnmpValue
    simp [h]
  · intro h
    simp only [List.mem_cons, List.not_mem_nil, or_false, not_or] at h
    obtain ⟨h1, h2, h3, h4, h5, h6, h7, h8, h9, h10⟩ := h
    unfold coerceSnmpValue
    simp [h1, h2, h3, h4, h5, h6, h7, h8, h9, h10]

/-- Witness for writeOid_variant_and_coercion_failure: a non-numeric
string written as INTEGER yields failure with no request on the wire. -/
theorem writeOid_variant_witness :
    (write_oid (fun _ _ => SetReply.ok) "1.3.6.1.2.1.1.5.0"
        (.str "abc") "INTEGER").requests = []
    ∧ (write_oid (fun _ _ => SetReply.ok) "1.3.6.1.2.1.1.5.0"
        (.str "abc") "INTEGER").success = false :=
  (writeOid_variant_and_coercion_failure (fun _ _ => SetReply.ok)
    "1.3.6.1.2.1.1.5.0" (.str "abc") "INTEGER").2.2.1 (by decide)

/-- Unfolding of runPolls on a skipped invocation. -/
theorem runPolls_cons_skip (interval t now : Nat) (rest : List Nat)
    (h : now - t < interval) :
    runPolls interval (some t) (now :: rest) = runPolls interval (some t) rest := by
  simp [runPolls, pollGate, h]

/-- Unfolding of runPolls on an accepted invocation. -/
theorem runPolls_cons_go (interval t now : Nat) (rest : List Nat)
    (h : ¬ now - t < interval) :
    runPolls interval (some t) (now :: rest) =
      now :: runPolls interval (some now) rest := by
  simp [runPolls, pollGate, h]

/-- Unfolding of runPolls on a first-ever invocation. -/
theorem runPolls_none_cons (interval now : Nat) (rest : List Nat) :
    runPolls interval none (now :: rest) =
      now :: runPolls interval (some now) rest := by
  simp [runPolls, pollGate]

/-- Every read accepted after a recorded last poll time happens at least
one full interval later. -/
theorem runPolls_ge (interval : Nat) (h1 : 1 ≤ interval) :
    ∀ (ts : List Nat) (t : Nat), ∀ x ∈ runPolls interval (some t) ts,
      t + interval ≤ x := by
  intro ts
  induction ts with
  | nil => intro t x hx; simp [runPolls] at hx
  | cons now rest ih =>
    intro t x hx
    by_cases hlt : now - t < interval
    · rw [runPolls_cons_skip interval t now rest hlt] at hx
      exact ih t x hx
    · rw [runPolls_cons_go interval t now rest hlt] at hx
      have hnow : t + interval ≤ now := by omega
      rcases List.mem_cons.mp hx with rfl | hx2
      · exact hnow
      · have := ih now x hx2
        omega

/-- Accepted read instants are pairwise at least one interval apart. -/
theorem runPolls_pairwise (interval : Nat) (h1 : 1 ≤ interval) :
    ∀ (ts : List Nat) (last : Option Nat),
      (runPolls interval last ts).Pairwise (fun a b => a + interval ≤ b) := by
  intro ts
  induction ts with
  | nil => intro last; simp [runPolls]
  | cons now rest ih =>
    intro last
    match last with
    | none =>
      rw [runPolls_none_cons]
      refine List.pairwise_cons.mpr ⟨?_, ih (some now)⟩
      intro x hx
      exact runPolls_ge interval h1 rest now x hx
    | some t =>
      by_cases hlt : now - t < interval
      · rw [runPolls_cons_skip interval t now rest hlt]
        exact ih (some t)
      · rw [runPolls_cons_go interval t now rest hlt]
        refine List.pairwise_cons.mpr ⟨?_, ih (some now)⟩
        intro x hx
        exact runPolls_ge interval h1 rest now x hx

/-- C2: the per-device poll worker reads only when the device was never
polled or at least the effective interval has elapsed since the recorded
last poll time, stamping the last poll time to now before reading and
returning without work otherwise; consequently any two successful read
cycles lie at least one interval apart and the recorded last-poll
timestamp strictly advances on every accepted cycle and is untouched on
a skipped one. -/
theorem pollWorker_rate_gating (p : Option Nat) (last : Option Nat)
    (ts : List Nat) :
    1 ≤ effInterval p
    ∧ (∀ t now, now - t < effInterval p →
        pollGate (effInterval p) (some t) now = (false, t))
    ∧ (∀ t now, effInterval p ≤ now - t →
        pollGate (effInterval p) (some t) now = (true, now))
    ∧ (∀ now, pollGate (effInterval p) none now = (true, now))
    ∧ (∀ t now, (pollGate (effInterval p) (some t) now).1 = true →
        t < (pollGate (effInterval p) (some t) now).2)
    ∧ (∀ t now, (pollGate (effInterval p) (some t) now).1 = false →
        (pollGate (effInterval p) (some t) now).2 = t)
    ∧ (runPolls (effInterval p) last ts).Pairwise
        (fun a b => a + effInterval p ≤ b) := by
  have h1 : 1 ≤ effInterval p := by
    match p with
    | none => simp [effInterval]
    | some n =>
      by_cases hn : n = 0
      · simp [effInterval, hn]
      · simp only [effInterval, if_neg hn]
        omega
  refine ⟨h1, ?_, ?_, ?_, ?_, ?_, runPolls_pairwise (effInterval p) h1 ts last⟩
  · intro t now h
    simp [pollGate, h]
  · intro t now h
    simp [pollGate, Nat.not_lt.mpr h]
  · intro now
    simp [pollGate]
  · intro t now h
    by_cases hlt : now - t < effInterval p
    · simp [pollGate, hlt] at h
    · simp [pollGate, hlt]
      omega
  · intro t now h
    by_cases hlt : now - t < effInterval p
    · simp [pollGate, hlt]
    · simp [pollGate, hlt] at h

/-- Witness for pollWorker_rate_gating: with the default 1000 ms
interval, a worker invocation 400 ms after the recorded poll is skipped
and one 1000 ms after it is accepted and restamps. -/
theorem pollWorker_rate_gating_witness :
    pollGate (effInterval none) (some 100) 500 = (false, 100)
    ∧ pollGate (effInterval none) (some 100) 1100 = (true, 1100) :=
  ⟨(pollWorker_rate_gating none none []).2.1 100 500 (by decide),
   (pollWorker_rate_gating none none []).2.2.1 100 1100 (by decide)⟩


/-- Unfolding of the inner walk loop on a binding inside the subtree,
below the limit. -/
theorem walkBinds_cons_go (base : String) (vb : VarBind) (rest : List VarBind)
    (acc : List DiscObj) (count : Nat) (cur : String)
    (hp : pyStartsWith vb.oid base = true) (hc : ¬ count + 1 ≥ max_objects) :
    walkBinds base (vb :: rest) acc count cur
      = walkBinds base rest (acc ++ [mkDiscObj vb]) (count + 1) vb.oid := by
  simp [walkBinds, hp, hc]

/-- Unfolding of the inner walk loop on a binding inside the subtree
that reaches the limit. -/
theorem walkBinds_cons_limit (base : String) (vb : VarBind) (rest : List VarBind)
    (acc : List DiscObj) (count : Nat) (cur : String)
    (hp : pyStartsWith vb.oid base = true) (hc : count + 1 ≥ max_objects) :
    walkBinds base (vb :: rest) acc count cur
      = (acc ++ [mkDiscObj vb], count + 1, vb.oid, true) := by
  simp [walkBinds, hp, hc]

/-- Unfolding of the inner walk loop on a binding that escapes the
subtree. -/
theorem walkBinds_cons_escape (base : String) (vb : VarBind) (rest : List VarBind)
    (acc : List DiscObj) (count : Nat) (cur : String)
    (hp : pyStartsWith vb.oid base = false) :
    walkBinds base (vb :: rest) acc count cur = (acc, count, cur, true) := by
  simp [walkBinds, hp]

/-- Unfolding of the outer walk loop with remaining fuel. -/
theorem walkLoop_succ (net : String → NextReply) (base : String) (f : Nat)
    (acc : List DiscObj) (count : Nat) (cur : String) :
    walkLoop net base (f + 1) acc count cur
      = if count ≥ max_objects then acc
        else
          match net cur with
          | .errInd _ => acc
          | .errStatus _ => acc
          | .binds bs =>
            let r := walkBinds base bs acc count cur
            if r.2.2.2 then r.1 else walkLoop net base f r.1 r.2.1 r.2.2.1 := rfl

/-- Count bookkeeping and size bound of the inner walk loop: starting
from a count equal to the gathered length and strictly below the limit,
the count tracks the length and the length never exceeds the limit. -/
theorem walkBinds_invariant (base : String) :
    ∀ (bs : List VarBind) (acc : List DiscObj) (count : Nat) (cur : String),
      count = acc.length → count < max_objects →
      (walkBinds base bs acc count cur).2.1
          = (walkBinds base bs acc count cur).1.length
        ∧ (walkBinds base bs acc count cur).1.length ≤ max_objects := by
  intro bs
  induction bs with
  | nil =>
    intro acc count cur h hlt
    subst h
    rw [walkBinds]
    exact ⟨rfl, by dsimp only; omega⟩
  | cons vb rest ih =>
    intro acc count cur h hlt
    subst h
    by_cases hp : pyStartsWith vb.oid base = true
    · by_cases hc : acc.length + 1 ≥ max_objects
      · rw [walkBinds_cons_limit base vb rest acc acc.length cur hp hc]
        refine ⟨by simp, ?_⟩
        simp only [List.length_append, List.length_cons, List.length_nil]
        omega
      · rw [walkBinds_cons_go base vb rest acc acc.length cur hp hc]
        exact ih (acc ++ [mkDiscObj vb]) (acc.length + 1) vb.oid (by simp) (by omega)
    · rw [walkBinds_cons_escape base vb rest acc acc.length cur
        (Bool.not_eq_true _ ▸ hp)]
      exact ⟨rfl, by dsimp only; omega⟩

/-- Every record gathered by the inner walk loop has the base OID as a
string prefix, provided the accumulator already does. -/
theorem walkBinds_prefix (base : String) :
    ∀ (bs : List VarBind) (acc : List DiscObj) (count : Nat) (cur : String),
      (∀ o ∈ acc, pyStartsWith o.oid base = true) →
      ∀ o ∈ (walkBinds base bs acc count cur).1,
        pyStartsWith o.oid base = true := by
  intro bs
  induction bs with
  | nil =>
    intro acc count cur hacc o ho
    rw [walkBinds] at ho
    exact hacc o ho
  | cons vb rest ih =>
    intro acc count cur hacc o ho
    by_cases hp : pyStartsWith vb.oid base = true
    · have hacc2 : ∀ o ∈ acc ++ [mkDiscObj vb], pyStartsWith o.oid base = true := by
        intro o2 ho2
        rcases List.mem_append.mp ho2 with h2 | h2
        · exact hacc o2 h2
        · rcases List.mem_singleton.mp h2 with rfl
          simpa [mkDiscObj] using hp
      by_cases hc : count + 1 ≥ max_objects
      · rw [walkBinds_cons_limit base vb rest acc count cur hp hc] at ho
        exact hacc2 o ho
      · rw [walkBinds_cons_go base vb rest acc count cur hp hc] at ho
        exact ih (acc ++ [mkDiscObj vb]) (count + 1) vb.oid hacc2 o ho
    · rw [walkBinds_cons_escape base vb rest acc count cur
        (Bool.not_eq_true _ ▸ hp)] at ho
      exact hacc o ho

/-- Size bound of the outer walk loop. -/
theorem walkLoop_length (net : String → NextReply) (base : String) :
    ∀ (fuel : Nat) (acc : List DiscObj) (count : Nat) (cur : String),
      count = acc.length → count ≤ max_objects →
      (walkLoop net base fuel acc count cur).length ≤ max_objects := by
  intro fuel
  induction fuel with
  | zero =>
    intro acc count cur h hle
    rw [walkLoop]
    omega
  | succ f ih =>
    intro acc count cur h hle
    rw [walkLoop_succ]
    by_cases hc : count ≥ max_objects
    · rw [if_pos hc]
      omega
    · rw [if_neg hc]
      cases hn : net cur with
      | errInd m => dsimp only; omega
      | errStatus m => dsimp only; omega
      | binds bs =>
        dsimp only
        have hlt : count < max_objects := Nat.lt_of_not_le hc
        obtain ⟨hcnt, hlen⟩ := walkBinds_invariant base bs acc count cur h hlt
        by_cases hs : (walkBinds base bs acc count cur).2.2.2 = true
        · rw [if_pos hs]
          exact hlen
        · rw [if_neg hs]
          exact ih _ _ _ hcnt (by omega)

/-- Prefix property of the outer walk loop. -/
theorem walkLoop_prefix (net : String → NextReply) (base : String) :
    ∀ (fuel : Nat) (acc : List DiscObj) (count : Nat) (cur : String),
      (∀ o ∈ acc, pyStartsWith o.oid base = true) →
      ∀ o ∈ walkLoop net base fuel acc count cur,
        pyStartsWith o.oid base = true := by
  intro fuel
  induction fuel with
  | zero =>
    intro acc count cur hacc o ho
    rw [walkLoop] at ho
    exact hacc o ho
  | succ f ih =>
    intro acc count cur hacc o ho
    rw [walkLoop_succ] at ho
    by_cases hc : count ≥ max_objects
    · rw [if_pos hc] at ho
      exact hacc o ho
    · rw [if_neg hc] at ho
      cases hn : net cur with
      | errInd m => rw [hn] at ho; exact hacc o ho
      | errStatus m => rw [hn] at ho; exact hacc o ho
      | binds bs =>
        rw [hn] at ho
        dsimp only at ho
        have hpre := walkBinds_prefix base bs acc count cur hacc
        by_cases hs : (walkBinds base bs acc count cur).2.2.2 = true
        · rw [if_pos hs] at ho
          exact hpre o ho
        · rw [if_neg hs] at ho
          exact ih _ _ _ hpre o ho

/-- C3: discoverObjects returns a list of at most 100 entries, every
entry OID carrying the base OID as a string prefix; the GET-NEXT walk
stops at the first OID not prefixed by the base OID or upon collecting
100 entries, whichever comes first, and expiry of the wall-clock cap
(fuel exhaustion) still returns success with the entries gathered so
far. -/
theorem discoverObjects_walk_bounded (net : String → NextReply)
    (fuel : Nat) (base : String) :
    (discover_objects net fuel base).1 = true
    ∧ (discover_objects net fuel base).2.length ≤ 100
    ∧ (∀ o ∈ (discover_objects net fuel base).2, pyStartsWith o.oid base = true)
    ∧ (∀ vb rest acc count cur, pyStartsWith vb.oid base = false →
        walkBinds base (vb :: rest) acc count cur = (acc, count, cur, true))
    ∧ (∀ vb rest acc count cur, pyStartsWith vb.oid base = true →
        100 ≤ count + 1 →
        walkBinds base (vb :: rest) acc count cur
          = (acc ++ [mkDiscObj vb], count + 1, vb.oid, true))
    ∧ (∀ f acc count cur, 100 ≤ count →
        walkLoop net base (f + 1) acc count cur = acc)
    ∧ (∀ acc count cur, walkLoop net base 0 acc count cur = acc) := by
  refine ⟨rfl, ?_, ?_, ?_, ?_, ?_, ?_⟩
  · exact walkLoop_length net base fuel [] 0 base rfl (by simp [max_objects])
  · exact walkLoop_prefix net base fuel [] 0 base (by simp)
  · intro vb rest acc count cur hp
    exact walkBinds_cons_escape base vb rest acc count cur hp
  · intro vb rest acc count cur hp hc
    exact walkBinds_cons_limit base vb rest acc count cur hp hc
  · intro f acc count cur hc
    rw [walkLoop_succ,
      if_pos (show count ≥ max_objects by simpa [max_objects] using hc)]
  · intro acc count cur
    rfl

/-- Witness for discoverObjects_walk_bounded: a GET-NEXT response whose
first OID escapes the base subtree ends the walk at once with the
records gathered so far. -/
theorem discoverObjects_walk_witness :
    walkBinds "1.3.6.1.2.1"
        [{ oid := "1.3.6.2.1.1", value := "v", pretty := "p", vbType := "T" }]
        [] 0 "1.3.6.1.2.1"
      = ([], 0, "1.3.6.1.2.1", true) :=
  (discoverObjects_walk_bounded (fun _ => NextReply.errInd "down") 3
    "1.3.6.1.2.1").2.2.2.1
    { oid := "1.3.6.2.1.1", value := "v", pretty := "p", vbType := "T" }
    [] [] 0 "1.3.6.1.2.1" (by decide)


/-- Inserting a key absent from a dict appends the pair. -/
theorem dictInsert_append {α : Type} (k : String) (v : α) :
    ∀ d : List (String × α), (∀ kv ∈ d, kv.1 ≠ k) →
      dictInsert k v d = d ++ [(k, v)] := by
  intro d
  induction d with
  | nil => intro _; rfl
  | cons kv0 rest ih =>
    intro h
    have hk : kv0.1 ≠ k := h kv0 (List.mem_cons_self kv0 rest)
    rw [show (kv0 :: rest : List (String × α)) = (kv0.1, kv0.2) :: rest by rfl]
    rw [dictInsert, if_neg hk]
    rw [ih fun kv hkv => h kv (List.mem_cons_of_mem kv0 hkv)]
    rfl

/-- Splicing a dict with fresh, duplicate-free keys into a dict literal
appends its pairs in order. -/
theorem dict_splice {α : Type} :
    ∀ (readings : List (String × α)) (d0 : List (String × α)),
      (readings.map Prod.fst).Nodup →
      (∀ kv ∈ readings, ∀ kv0 ∈ d0, kv.1 ≠ kv0.1) →
      readings.foldl (fun d kv => dictInsert kv.1 kv.2 d) d0 = d0 ++ readings := by
  intro readings
  induction readings with
  | nil => intro d0 _ _; simp
  | cons kv rest ih =>
    intro d0 hnd hdisj
    rw [List.foldl_cons]
    rw [dictInsert_append kv.1 kv.2 d0 fun kv0 h0 he =>
      hdisj kv (List.mem_cons_self kv rest) kv0 h0 he.symm]
    have hnd1 : (kv.1 :: rest.map Prod.fst).Nodup := by simpa using hnd
    have hk : ∀ kv2 ∈ rest, kv2.1 ≠ kv.1 := by
      intro kv2 h2 he
      exact (List.nodup_cons.mp hnd1).1 (he ▸ List.mem_map_of_mem Prod.fst h2)
    have hdisj2 : ∀ kv2 ∈ rest, ∀ kv0 ∈ d0 ++ [(kv.1, kv.2)], kv2.1 ≠ kv0.1 := by
      intro kv2 h2 kv0 h0
      rcases List.mem_append.mp h0 with h0 | h0
      · exact hdisj kv2 (List.mem_cons_of_mem kv h2) kv0 h0
      · rcases List.mem_singleton.mp h0 with rfl
        exact hk kv2 h2
    rw [ih (d0 ++ [(kv.1, kv.2)]) (List.nodup_cons.mp hnd1).2 hdisj2]
    simp

/-- C4 counterexample: a readings map containing the key HWID is not
recovered by parsing the published JSON payload and removing HWID and
Timestamp — the reading named HWID overrides the leading HWID field and
is then deleted with it. -/
theorem publishJson_roundTrip_cex :
    roundTrip "dev1" [("HWID", "42")] "ts0" ≠ [("HWID", "42")] := by decide

/-- C4 amended: for every readings map with duplicate-free keys that
contains neither HWID nor Timestamp as a key, parsing the payload
published with publish_format json and removing the HWID and Timestamp
keys yields exactly the readings map. -/
theorem publishJson_roundTrip {α : Type} (hwid ts : α)
    (readings : List (String × α))
    (hnd : (readings.map Prod.fst).Nodup)
    (hh : ∀ kv ∈ readings, kv.1 ≠ "HWID")
    (ht : ∀ kv ∈ readings, kv.1 ≠ "Timestamp") :
    roundTrip hwid readings ts = readings := by
  have hsp : readings.foldl (fun d kv => dictInsert kv.1 kv.2 d) [("HWID", hwid)]
      = ("HWID", hwid) :: readings := by
    have hfresh : ∀ kv ∈ readings, ∀ kv0 ∈ [("HWID", hwid)], kv.1 ≠ kv0.1 := by
      intro kv hkv kv0 h0
      rcases List.mem_singleton.mp h0 with rfl
      exact hh kv hkv
    rw [dict_splice readings [("HWID", hwid)] hnd hfresh]
    rfl
  have hts : dictInsert "Timestamp" ts (("HWID", hwid) :: readings)
      = ("HWID", hwid) :: (readings ++ [("Timestamp", ts)]) := by
    have hfresh : ∀ kv ∈ ("HWID", hwid) :: readings, kv.1 ≠ "Timestamp" := by
      intro kv hkv
      rcases List.mem_cons.mp hkv with rfl | hkv
      · simp
      · exact ht kv hkv
    rw [dictInsert_append "Timestamp" ts _ hfresh]
    rfl
  have hfilH : readings.filter (fun kv => kv.1 ≠ "HWID") = readings :=
    List.filter_eq_self.mpr fun kv hkv => by simpa using hh kv hkv
  have hfilT : readings.filter (fun kv => kv.1 ≠ "Timestamp") = readings :=
    List.filter_eq_self.mpr fun kv hkv => by simpa using ht kv hkv
  rw [roundTrip, buildJsonPayload, hsp, hts, dictErase, dictErase]
  rw [List.filter_cons_of_neg (by simp)]
  rw [List.filter_append, hfilH]
  rw [show List.filter (fun kv => kv.1 ≠ "HWID") [("Timestamp", ts)]
      = [("Timestamp", ts)] from by simp]
  rw [List.filter_append, hfilT]
  simp

/-- Witness for publishJson_roundTrip: a two-reading map is recovered
exactly. -/
theorem publishJson_roundTrip_witness :
    roundTrip "LINE_A" [("Temp", "25.5"), ("Counter", "7")] "T0"
      = [("Temp", "25.5"), ("Counter", "7")] :=
  publishJson_roundTrip "LINE_A" "T0" [("Temp", "25.5"), ("Counter", "7")]
    (by decide) (by decide) (by decide)

/-- C5 counterexample: an SNMP object whose access column is null — so
its access field does not contain write — is nevertheless written
through to the wire by writeByName: the rejection guard only fires on a
truthy access column. -/
theorem writeByName_null_access_cex :
    accessFieldContainsWrite (none : Option String) = false
    ∧ (write_by_name (fun _ _ => SetReply.ok)
        [{ id := 1, config_id := 1, oid := "1.3.6.1.2.1.1.4.0",
           name := some "sysContact", data_type := some "STRING",
           access := none, last_value := none, last_read := none }]
        1 "sysContact" (.str "ops") 5).writes ≠ [] := by decide

/-- C5 amended: writeByName looks up the first object matching the
device and parameter name; with no match it fails with no SNMP set; a
match whose access column is non-empty and whose lower-casing does not
contain write is rejected with no SNMP set (a null or empty access
column is treated as writable); otherwise it delegates to writeOID with
the object OID and its data type defaulted to STRING when unset, and it
updates the object last value and last read time exactly when that
write succeeds. -/
theorem writeByName_behaviour (net : String → SnmpValue → SetReply)
    (objects : List SNMPObjectRec) (config_id : Nat) (parameter_name : String)
    (value : PyVal) (now : Nat) :
    ((objects.filter fun o =>
        o.config_id = config_id ∧ o.name = some parameter_name).head? = none →
      write_by_name net objects config_id parameter_name value now
        = { writes := [], success := false, message := "Parameter not found",
            objects := objects })
    ∧ (∀ obj, (objects.filter fun o =>
          o.config_id = config_id ∧ o.name = some parameter_name).head? = some obj →
        rejectsWrite obj.access = true →
        write_by_name net objects config_id parameter_name value now
          = { writes := [], success := false, message := "Parameter is read-only",
              objects := objects })
    ∧ (∀ obj, (objects.filter fun o =>
          o.config_id = config_id ∧ o.name = some parameter_name).head? = some obj →
        rejectsWrite obj.access = false →
        (write_by_name net objects config_id parameter_name value now).writes
            = (write_oid net obj.oid value (obj.data_type.getD "STRING")).requests
          ∧ (write_by_name net objects config_id parameter_name value now).success
            = (write_oid net obj.oid value (obj.data_type.getD "STRING")).success
          ∧ ((write_oid net obj.oid value (obj.data_type.getD "STRING")).success = true →
              (write_by_name net objects config_id parameter_name value now).objects
                = objects.map fun o =>
                    if o.id = obj.id then
                      { o with last_value := some (pyToStr value),
                               last_read := some now }
                    else o)
          ∧ ((write_oid net obj.oid value (obj.data_type.getD "STRING")).success = false →
              (write_by_name net objects config_id parameter_name value now).objects
                = objects)) := by
  refine ⟨?_, ?_, ?_⟩
  · intro h
    rw [write_by_name, h]
  · intro obj h hr
    rw [write_by_name, h]
    simp [hr]
  · intro obj h hr
    rw [write_by_name, h]
    simp only [hr, Bool.false_eq_true, if_false]
    by_cases hs : (write_oid net obj.oid value (obj.data_type.getD "STRING")).success = true
    · simp [hs]
    · simp only [Bool.not_eq_true] at hs
      simp [hs]

/-- Witness for writeByName_behaviour: a writable object is written on
the wire and its stored last value and last read time are updated. -/
theorem writeByName_behaviour_witness :
    (write_by_name (fun _ _ => SetReply.ok)
        [{ id := 2, config_id := 1, oid := "1.3.6.1.2.1.1.4.0",
           name := some "sysContact", data_type := some "STRING",
           access := some "read-write", last_value := none, last_read := none }]
        1 "sysContact" (.str "ops") 5).writes
      = (write_oid (fun _ _ => SetReply.ok) "1.3.6.1.2.1.1.4.0"
          (.str "ops") "STRING").requests :=
  ((writeByName_behaviour (fun _ _ => SetReply.ok)
      [{ id := 2, config_id := 1, oid := "1.3.6.1.2.1.1.4.0",
         name := some "sysContact", data_type := some "STRING",
         access := some "read-write", last_value := none, last_read := none }]
      1 "sysContact" (.str "ops") 5).2.2
    { id := 2, config_id := 1, oid := "1.3.6.1.2.1.1.4.0",
      name := some "sysContact", data_type := some "STRING",
      access := some "read-write", last_value := none, last_read := none }
    (by decide) (by decide)).1


/-- C6 counterexample: on a topic with an empty trailing segment the
handler falls back to the device_id field of the payload instead of the
trailing segment the claim prescribes — the identifier resolved by the
claim (the empty string) matches no stored configuration, yet the
handler still dispatches one SNMP write. -/
theorem onMessage_unknown_hwid_cex :
    (∀ c ∈ [({ id := 1, hwid := some "SW01" } : SNMPConfigRec)],
        c.hwid ≠ some (claimResolvedHwid "cmd/" "SW01"))
    ∧ on_message [{ id := 1, hwid := some "SW01" }]
        { topic := "cmd/",
          payload := some { device_id := some "SW01",
                            parameter_name := some "sysContact",
                            value := some (.str "ops"),
                            message_id := some "m7" } } ≠ [] := by decide

/-- C6 amended: for every inbound MQTT command message whose resolved
hardware identifier — the trailing topic segment when the topic has at
least two segments and that segment is non-empty, else the device_id
field of the payload — matches no stored SNMP device configuration,
zero SNMP write operations are issued: the handler drops the message
and writeByName is never called. -/
theorem onMessage_unknown_hwid (configs : List SNMPConfigRec) (msg : InMsg)
    (h : ∀ p, msg.payload = some p → ∀ did, p.device_id = some did →
        ∀ c ∈ configs, c.hwid ≠ some (resolvedHwid msg.topic did)) :
    on_message configs msg = [] := by
  obtain ⟨topic, payload⟩ := msg
  cases payload with
  | none => rfl
  | some p =>
    obtain ⟨odid, opn, ov, omid⟩ := p
    cases odid with
    | none => cases opn <;> cases ov <;> rfl
    | some did =>
      cases opn with
      | none => cases ov <;> rfl
      | some pname =>
        cases ov with
        | none => rfl
        | some v =>
          have hfil : (configs.filter fun c =>
              c.hwid = some (resolvedHwid topic did)).head? = none := by
            rw [List.head?_eq_none_iff, List.filter_eq_nil_iff]
            intro c hc
            have hne := h ⟨some did, some pname, some v, omid⟩ rfl did rfl c hc
            simpa using hne
          dsimp only [on_message]
          rw [hfil]

/-- Witness for onMessage_unknown_hwid: a command whose topic tail names
an unknown device is dropped with no write. -/
theorem onMessage_unknown_hwid_witness :
    on_message [{ id := 1, hwid := some "SW01" }]
        { topic := "cmd/SW99",
          payload := some { device_id := some "SW01",
                            parameter_name := some "sysContact",
                            value := some (.str "ops"),
                            message_id := none } } = [] :=
  onMessage_unknown_hwid [{ id := 1, hwid := some "SW01" }]
    { topic := "cmd/SW99",
      payload := some { device_id := some "SW01",
                        parameter_name := some "sysContact",
                        value := some (.str "ops"),
                        message_id := none } }
    (by decide)


/-- C7 counterexample: the RegisterSession frame the probe sends is not
28 bytes — the struct.pack format HHIIQI (u16, u16, u32, u32, u64, u32)
yields 24 bytes, although the source comment announces 28. -/
theorem cpppoRegisterSession_length_cex :
    registerSessionFrame.length ≠ 28 := by decide

/-- C7 amended: the CPPPO connect probe sends a single 24-byte
little-endian RegisterSession frame — command 0x65 in the first two
bytes, every other field (length, session handle, status, sender
context, options) zero — and, for a reply of at least 28 bytes, reports
the connection successful exactly when the status word (bytes 8 to 11,
little-endian) of the reply is zero; a shorter reply is reported as
incomplete. -/
theorem cpppoRegisterSession_probe (reply : List Nat) :
    (GetPLCTime reply).1 = [registerSessionFrame]
    ∧ registerSessionFrame.length = 24
    ∧ registerSessionFrame = 0x65 :: List.replicate 23 0
    ∧ unpackLE (registerSessionFrame.take 2) = 0x65
    ∧ unpackLE ((registerSessionFrame.drop 2).take 2) = 0
    ∧ unpackLE ((registerSessionFrame.drop 4).take 4) = 0
    ∧ unpackLE ((registerSessionFrame.drop 8).take 4) = 0
    ∧ unpackLE ((registerSessionFrame.drop 12).take 8) = 0
    ∧ unpackLE ((registerSessionFrame.drop 20).take 4) = 0
    ∧ (28 ≤ reply.length →
        ((GetPLCTime reply).2 = EipProbeResult.success ↔
          unpackLE ((reply.drop 8).take 4) = 0))
    ∧ (reply.length < 28 →
        (GetPLCTime reply).2 = EipProbeResult.incomplete reply.length) := by
  refine ⟨rfl, by decide, by decide, by decide, by decide, by decide,
    by decide, by decide, by decide, ?_, ?_⟩
  · intro hlen
    rw [GetPLCTime, handleRegisterReply]
    rw [if_pos hlen]
    by_cases hs : unpackLE ((reply.drop 8).take 4) = 0
    · simp [hs]
    · simp [hs]
  · intro hlen
    rw [GetPLCTime, handleRegisterReply]
    rw [if_neg (by omega)]

/-- Witness for cpppoRegisterSession_probe: an all-zero 28-byte reply
has status word zero and the probe reports success. -/
theorem cpppoRegisterSession_probe_witness :
    (GetPLCTime (List.replicate 28 0)).2 = EipProbeResult.success :=
  ((cpppoRegisterSession_probe (List.replicate 28 0)).2.2.2.2.2.2.2.2.2.1
    (by decide)).mpr (by decide)

/-- C8 counterexample: a due, disconnected, enabled broker with a
subscribe topic gets restartSubscriber even though the connectBroker
attempt fails — the supervisor never consults the success flag. -/
theorem reconnect_restart_despite_failure_cex :
    reconnectMqttOne (fun _ => false) (fun _ => false) (fun _ => none) 0
        { id := 7, subscribe_topic := some "cmd", enabled := true }
      = [SupAction.connectAttempt 7 false, SupAction.restartSub 7]
    ∧ SupAction.restartSub 7 ∈
        reconnectMqttOne (fun _ => false) (fun _ => false) (fun _ => none) 0
          { id := 7, subscribe_topic := some "cmd", enabled := true } := by
  decide

/-- C8 amended: in every supervisor reconnect tick, for every enabled
MQTT broker that is disconnected, due for an attempt and has a
subscribe topic configured, restartSubscriber is invoked immediately
after the connectBroker attempt, regardless of whether that attempt
succeeds; restartSubscriber is never invoked in any other situation. -/
theorem reconnect_restart_after_attempt (connectOk statusConnected : Nat → Bool)
    (lastAttempt : Nat → Option Nat) (now : Nat) (cfg : MQTTConfigRec) :
    (SupAction.restartSub cfg.id ∈
        reconnectMqttOne connectOk statusConnected lastAttempt now cfg ↔
      statusConnected cfg.id = false
        ∧ dueForAttempt (lastAttempt cfg.id) now = true
        ∧ subscribeTruthy cfg.subscribe_topic = true)
    ∧ (SupAction.restartSub cfg.id ∈
        reconnectMqttOne connectOk statusConnected lastAttempt now cfg →
      reconnectMqttOne connectOk statusConnected lastAttempt now cfg
        = [SupAction.connectAttempt cfg.id (connectOk cfg.id),
           SupAction.restartSub cfg.id]) := by
  by_cases hc : statusConnected cfg.id = true
  · constructor
    · rw [reconnectMqttOne, if_pos hc]
      simp [hc]
    · rw [reconnectMqttOne, if_pos hc]
      intro hmem
      exact absurd hmem (List.not_mem_nil _)
  · simp only [Bool.not_eq_true] at hc
    by_cases hd : dueForAttempt (lastAttempt cfg.id) now = true
    · by_cases hs : subscribeTruthy cfg.subscribe_topic = true
      · constructor
        · rw [reconnectMqttOne]
          simp [hc, hd, hs]
        · intro _
          rw [reconnectMqttOne]
          simp [hc, hd, hs]
      · simp only [Bool.not_eq_true] at hs
        constructor
        · rw [reconnectMqttOne]
          simp [hc, hd, hs]
        · intro hmem
          rw [reconnectMqttOne] at hmem
          simp [hc, hd, hs] at hmem
    · simp only [Bool.not_eq_true] at hd
      constructor
      · rw [reconnectMqttOne]
        simp [hc, hd]
      · intro hmem
        rw [reconnectMqttOne] at hmem
        simp [hc, hd] at hmem

/-- Witness for reconnect_restart_after_attempt: a due broker with a
subscribe topic whose reconnect attempt succeeds yields the attempt
followed by the subscriber restart. -/
theorem reconnect_restart_after_attempt_witness :
    reconnectMqttOne (fun _ => true) (fun _ => false) (fun _ => some 0) 30
        { id := 4, subscribe_topic := some "cmd", enabled := true }
      = [SupAction.connectAttempt 4 true, SupAction.restartSub 4] :=
  (reconnect_restart_after_attempt (fun _ => true) (fun _ => false)
      (fun _ => some 0) 30
      { id := 4, subscribe_topic := some "cmd", enabled := true }).2
    (((reconnect_restart_after_attempt (fun _ => true) (fun _ => false)
        (fun _ => some 0) 30
        { id := 4, subscribe_topic := some "cmd", enabled := true }).1).mpr
      (by decide))


/-- Unfolding of the table insertion at a matching head. -/
theorem dictInsertNat_cons_eq {α : Type} (k : Nat) (v : α) (k2 : Nat) (v2 : α)
    (rest : List (Nat × α)) (hk : k2 = k) :
    dictInsertNat k v ((k2, v2) :: rest) = (k2, v) :: rest := by
  simp [dictInsertNat, hk]

/-- Unfolding of the table insertion at a non-matching head. -/
theorem dictInsertNat_cons_ne {α : Type} (k : Nat) (v : α) (k2 : Nat) (v2 : α)
    (rest : List (Nat × α)) (hk : ¬ k2 = k) :
    dictInsertNat k v ((k2, v2) :: rest) = (k2, v2) :: dictInsertNat k v rest := by
  simp [dictInsertNat, hk]

/-- Looking up a key right after inserting it yields the inserted
client. -/
theorem lookupNat_insert_self {α : Type} (k : Nat) (v : α) :
    ∀ l : List (Nat × α), lookupNat k (dictInsertNat k v l) = some v := by
  intro l
  induction l with
  | nil => simp [dictInsertNat, lookupNat]
  | cons kv rest ih =>
    obtain ⟨k2, v2⟩ := kv
    by_cases hk : k2 = k
    · rw [dictInsertNat_cons_eq k v k2 v2 rest hk, lookupNat, if_pos hk]
    · rw [dictInsertNat_cons_ne k v k2 v2 rest hk, lookupNat, if_neg hk]
      exact ih

/-- Removing a key undoes an insertion at that key. -/
theorem filter_insert_key {α : Type} (k : Nat) (v : α) :
    ∀ l : List (Nat × α),
      (dictInsertNat k v l).filter (fun kv => kv.1 ≠ k)
        = l.filter (fun kv => kv.1 ≠ k) := by
  intro l
  induction l with
  | nil => simp [dictInsertNat]
  | cons kv rest ih =>
    obtain ⟨k2, v2⟩ := kv
    by_cases hk : k2 = k
    · rw [dictInsertNat_cons_eq k v k2 v2 rest hk]
      rw [List.filter_cons, List.filter_cons]
      simp [hk]
    · rw [dictInsertNat_cons_ne k v k2 v2 rest hk]
      rw [List.filter_cons, List.filter_cons, ih]

/-- Filtering away an absent element is the identity. -/
theorem filter_ne_of_not_mem (c : Nat) (l : List Nat) (h : c ∉ l) :
    l.filter (fun x => x ≠ c) = l := by
  apply List.filter_eq_self.mpr
  intro a ha
  have hne : a ≠ c := fun he => h (he ▸ ha)
  simpa using hne

/-- A key removed from the table is no longer found. -/
theorem lookupNat_filter_key_none {α : Type} (k : Nat) :
    ∀ l : List (Nat × α),
      lookupNat k (l.filter (fun kv => kv.1 ≠ k)) = none := by
  intro l
  induction l with
  | nil => rfl
  | cons kv rest ih =>
    obtain ⟨k2, v2⟩ := kv
    rw [List.filter_cons]
    by_cases hk : k2 = k
    · rw [if_neg (by simpa using hk)]
      exact ih
    · rw [if_pos (by simpa using hk), lookupNat, if_neg hk]
      exact ih

/-- Removing a key twice is the same as removing it once. -/
theorem filter_key_idem {α : Type} (k : Nat) (l : List (Nat × α)) :
    (l.filter (fun kv => kv.1 ≠ k)).filter (fun kv => kv.1 ≠ k)
      = l.filter (fun kv => kv.1 ≠ k) := by
  apply List.filter_eq_self.mpr
  intro a ha
  exact (List.mem_filter.mp ha).2

/-- Keys of the table after an insertion come from the old table or are
the inserted key. -/
theorem mem_keys_insert {α : Type} (k a : Nat) (v : α) :
    ∀ l : List (Nat × α), a ∈ (dictInsertNat k v l).map Prod.fst →
      a ∈ l.map Prod.fst ∨ a = k := by
  intro l
  induction l with
  | nil =>
    intro h
    right
    simpa [dictInsertNat] using h
  | cons kv rest ih =>
    obtain ⟨k2, v2⟩ := kv
    intro h
    by_cases hk : k2 = k
    · rw [dictInsertNat_cons_eq k v k2 v2 rest hk] at h
      rw [List.map_cons, List.mem_cons] at h
      rcases h with h | h
      · left
        rw [List.map_cons, List.mem_cons]
        left
        exact h
      · left
        rw [List.map_cons, List.mem_cons]
        right
        exact h
    · rw [dictInsertNat_cons_ne k v k2 v2 rest hk] at h
      rw [List.map_cons, List.mem_cons] at h
      rcases h with h | h
      · left
        rw [List.map_cons, List.mem_cons]
        left
        exact h
      · rcases ih h with h2 | h2
        · left
          rw [List.map_cons, List.mem_cons]
          right
          exact h2
        · right
          exact h2

/-- Insertion preserves duplicate-freeness of the table keys. -/
theorem keys_nodup_insert {α : Type} (k : Nat) (v : α) :
    ∀ l : List (Nat × α), (l.map Prod.fst).Nodup →
      ((dictInsertNat k v l).map Prod.fst).Nodup := by
  intro l
  induction l with
  | nil => intro _; simp [dictInsertNat]
  | cons kv rest ih =>
    obtain ⟨k2, v2⟩ := kv
    intro h
    by_cases hk : k2 = k
    · rw [dictInsertNat_cons_eq k v k2 v2 rest hk]
      simpa using h
    · rw [dictInsertNat_cons_ne k v k2 v2 rest hk]
      rw [List.map_cons, List.nodup_cons]
      rw [List.map_cons, List.nodup_cons] at h
      refine ⟨?_, ih h.2⟩
      intro hmem
      rcases mem_keys_insert k k2 v rest hmem with h2 | h2
      · exact h.1 h2
      · exact hk h2

/-- Filtering preserves duplicate-freeness of the table keys. -/
theorem keys_nodup_filter {α : Type} (p : Nat × α → Bool) (l : List (Nat × α))
    (h : (l.map Prod.fst).Nodup) : ((l.filter p).map Prod.fst).Nodup :=
  List.Nodup.sublist (List.Sublist.map Prod.fst (List.filter_sublist l)) h

/-- Unfolding of a subscriber start with a truthy subscribe topic. -/
theorem start_subscriber_truthy (cfg : MQTTConfigRec) (s : SubState)
    (hs : subscribeTruthy cfg.subscribe_topic = true) :
    start_subscriber cfg s =
      ({ subscribers := dictInsertNat cfg.id s.nextClient s.subscribers,
         active := s.active ++ [s.nextClient],
         nextClient := s.nextClient + 1 }, true) := by
  simp [start_subscriber, hs]

/-- Unfolding of a subscriber start with a falsy subscribe topic. -/
theorem start_subscriber_falsy (cfg : MQTTConfigRec) (s : SubState)
    (hs : subscribeTruthy cfg.subscribe_topic = false) :
    start_subscriber cfg s = (s, true) := by
  simp [start_subscriber, hs]

/-- Unfolding of a subscriber stop with a tracked client. -/
theorem stop_subscriber_tracked (cid : Nat) (s : SubState) (c : Nat)
    (h : lookupNat cid s.subscribers = some c) :
    stop_subscriber cid s =
      ({ subscribers := s.subscribers.filter (fun kv => kv.1 ≠ cid),
         active := s.active.filter (fun x => x ≠ c),
         nextClient := s.nextClient }, true) := by
  simp [stop_subscriber, h]

/-- Unfolding of a subscriber stop with no tracked client. -/
theorem stop_subscriber_untracked (cid : Nat) (s : SubState)
    (h : lookupNat cid s.subscribers = none) :
    stop_subscriber cid s = (s, true) := by
  simp [stop_subscriber, h]

/-- Net effect of start-then-stop with a truthy subscribe topic on a
state whose fresh client identity is not already active: the tracked
entry for the broker is gone and the active clients are untouched. -/
theorem startStop_truthy (cfg : MQTTConfigRec) (s : SubState)
    (hs : subscribeTruthy cfg.subscribe_topic = true)
    (hnm : s.nextClient ∉ s.active) :
    startStop cfg s =
      { subscribers := s.subscribers.filter (fun kv => kv.1 ≠ cfg.id),
        active := s.active, nextClient := s.nextClient + 1 } := by
  have h1 : (start_subscriber cfg s).1 =
      { subscribers := dictInsertNat cfg.id s.nextClient s.subscribers,
        active := s.active ++ [s.nextClient],
        nextClient := s.nextClient + 1 } := by
    rw [start_subscriber_truthy cfg s hs]
  have h2 := stop_subscriber_tracked cfg.id
    { subscribers := dictInsertNat cfg.id s.nextClient s.subscribers,
      active := s.active ++ [s.nextClient],
      nextClient := s.nextClient + 1 } s.nextClient
    (lookupNat_insert_self cfg.id s.nextClient s.subscribers)
  rw [startStop, h1, h2]
  dsimp only
  congr 1
  · exact filter_insert_key cfg.id s.nextClient s.subscribers
  · rw [List.filter_append, filter_ne_of_not_mem s.nextClient s.active hnm]
    simp

/-- Net effect of start-then-stop with a falsy subscribe topic. -/
theorem startStop_falsy (cfg : MQTTConfigRec) (s : SubState)
    (hs : subscribeTruthy cfg.subscribe_topic = false) :
    startStop cfg s = (stop_subscriber cfg.id s).1 := by
  rw [startStop, start_subscriber_falsy cfg s hs]

/-- C9 counterexample: a second start of an already-started subscriber
does not leave exactly one active client — the new client is tracked
but the previous one keeps its network loop running, so two clients are
active. -/
theorem subscriber_double_start_cex :
    (((start_subscriber { id := 1, subscribe_topic := some "cmd", enabled := true }
        (start_subscriber { id := 1, subscribe_topic := some "cmd", enabled := true }
          { subscribers := [], active := [], nextClient := 0 }).1).1).active).length
      ≠ 1 := by decide

/-- C9 amended: for every broker, at most one subscriber client is
tracked at any moment and stopping with no active subscriber succeeds
without effect, and start-then-stop twice is observationally equivalent
to start-then-stop once; but a second start of an already-started
subscriber is not idempotent: it creates a fresh client, tracks it, and
leaves the previously started client active but untracked, so two
clients are active. -/
theorem subscriber_lifecycle (cfg : MQTTConfigRec) (s : SubState)
    (hf : s.Fresh) (hnd : (s.subscribers.map Prod.fst).Nodup) :
    (lookupNat cfg.id s.subscribers = none →
      stop_subscriber cfg.id s = (s, true))
    ∧ (stop_subscriber cfg.id s).2 = true
    ∧ (((start_subscriber cfg s).1).subscribers.map Prod.fst).Nodup
    ∧ (((stop_subscriber cfg.id s).1).subscribers.map Prod.fst).Nodup
    ∧ (subscribeTruthy cfg.subscribe_topic = true →
        ((start_subscriber cfg (start_subscriber cfg s).1).1).active
            = s.active ++ [s.nextClient, s.nextClient + 1]
        ∧ lookupNat cfg.id
            ((start_subscriber cfg (start_subscriber cfg s).1).1).subscribers
          = some (s.nextClient + 1))
    ∧ (startStop cfg (startStop cfg s)).subscribers
        = (startStop cfg s).subscribers
    ∧ (startStop cfg (startStop cfg s)).active = (startStop cfg s).active := by
  have hnm : s.nextClient ∉ s.active := fun hmem =>
    absurd (hf.1 s.nextClient hmem) (lt_irrefl s.nextClient)
  refine ⟨?_, ?_, ?_, ?_, ?_, ?_, ?_⟩
  · intro h
    exact stop_subscriber_untracked cfg.id s h
  · cases hl : lookupNat cfg.id s.subscribers with
    | none => rw [stop_subscriber_untracked cfg.id s hl]
    | some c => rw [stop_subscriber_tracked cfg.id s c hl]
  · by_cases hs : subscribeTruthy cfg.subscribe_topic = true
    · rw [start_subscriber_truthy cfg s hs]
      exact keys_nodup_insert cfg.id s.nextClient s.subscribers hnd
    · rw [start_subscriber_falsy cfg s (by simpa using hs)]
      exact hnd
  · cases hl : lookupNat cfg.id s.subscribers with
    | none =>
      rw [stop_subscriber_untracked cfg.id s hl]
      exact hnd
    | some c =>
      rw [stop_subscriber_tracked cfg.id s c hl]
      exact keys_nodup_filter _ s.subscribers hnd
  · intro hs
    have h1 : (start_subscriber cfg s).1 =
        { subscribers := dictInsertNat cfg.id s.nextClient s.subscribers,
          active := s.active ++ [s.nextClient],
          nextClient := s.nextClient + 1 } := by
      rw [start_subscriber_truthy cfg s hs]
    rw [h1, start_subscriber_truthy cfg _ hs]
    constructor
    · simp
    · exact lookupNat_insert_self cfg.id (s.nextClient + 1) _
  · by_cases hs : subscribeTruthy cfg.subscribe_topic = true
    · have hnm2 : s.nextClient + 1 ∉ s.active := fun hmem =>
        absurd (hf.1 (s.nextClient + 1) hmem) (by omega)
      rw [startStop_truthy cfg s hs hnm]
      rw [startStop_truthy cfg _ hs hnm2]
      dsimp only
      exact filter_key_idem cfg.id s.subscribers
    · have hs2 : subscribeTruthy cfg.subscribe_topic = false := by simpa using hs
      rw [startStop_falsy cfg s hs2]
      cases hl : lookupNat cfg.id s.subscribers with
      | none =>
        rw [stop_subscriber_untracked cfg.id s hl]
        rw [startStop_falsy cfg s hs2, stop_subscriber_untracked cfg.id s hl]
      | some c =>
        rw [stop_subscriber_tracked cfg.id s c hl]
        rw [startStop_falsy cfg _ hs2,
          stop_subscriber_untracked cfg.id _ (lookupNat_filter_key_none cfg.id s.subscribers)]
  · by_cases hs : subscribeTruthy cfg.subscribe_topic = true
    · have hnm2 : s.nextClient + 1 ∉ s.active := fun hmem =>
        absurd (hf.1 (s.nextClient + 1) hmem) (by omega)
      rw [startStop_truthy cfg s hs hnm]
      rw [startStop_truthy cfg _ hs hnm2]
    · have hs2 : subscribeTruthy cfg.subscribe_topic = false := by simpa using hs
      rw [startStop_falsy cfg s hs2]
      cases hl : lookupNat cfg.id s.subscribers with
      | none =>
        rw [stop_subscriber_untracked cfg.id s hl]
        rw [startStop_falsy cfg s hs2, stop_subscriber_untracked cfg.id s hl]
      | some c =>
        rw [stop_subscriber_tracked cfg.id s c hl]
        rw [startStop_falsy cfg _ hs2,
          stop_subscriber_untracked cfg.id _ (lookupNat_filter_key_none cfg.id s.subscribers)]

/-- Witness for subscriber_lifecycle: from the empty state, starting
the subscriber of a broker twice leaves clients 0 and 1 both active. -/
theorem subscriber_lifecycle_witness :
    ((start_subscriber { id := 1, subscribe_topic := some "cmd", enabled := true }
        (start_subscriber { id := 1, subscribe_topic := some "cmd", enabled := true }
          { subscribers := [], active := [], nextClient := 0 }).1).1).active
      = [0, 1] := by
  have h := (subscriber_lifecycle
      { id := 1, subscribe_topic := some "cmd", enabled := true }
      { subscribers := [], active := [], nextClient := 0 }
      ⟨by simp, by simp⟩ (by simp)).2.2.2.2.1 (by decide)
  simpa using h.1

/-- C10: for an endpoint id for which no connect attempt has ever
recorded a status, get_connection_status answers the default record
with connected false and message Not connected — in both the SNMP map
and the EthernetIP view — and consequently the per-device poll worker
for such a device returns without issuing any read or publish and
without touching the last-poll stamp: a device is polled only after a
connect probe has recorded success for it. -/
theorem unpolled_device_not_polled (statuses : List (Nat × ConnStatus))
    (c : EipConfigRec) (tags : List TagRec) (readOk : Nat → Bool)
    (lastPoll : Option Nat) (now : Nat)
    (h : lookupNat c.id statuses = none) :
    get_connection_status statuses c.id = defaultStatus
    ∧ (get_connection_status statuses c.id).connected = false
    ∧ (get_connection_status statuses c.id).message = "Not connected"
    ∧ (eip_get_connection_status statuses c.id).connected = false
    ∧ (eip_get_connection_status statuses c.id).message = "Not connected"
    ∧ poll_single_ethernetip_device statuses (some c) tags readOk lastPoll now
        = ([], lastPoll) := by
  have hst : get_connection_status statuses c.id = defaultStatus := by
    rw [get_connection_status, h]
    rfl
  refine ⟨hst, by rw [hst]; rfl, by rw [hst]; rfl, ?_, ?_, ?_⟩
  · rw [eip_get_connection_status, h]
    rfl
  · rw [eip_get_connection_status, h]
    rfl
  · rw [poll_single_ethernetip_device]
    by_cases he : c.enabled = true
    · rw [if_neg (by simp [he])]
      rw [if_pos (by simp [eip_get_connection_status, h, defaultStatus])]
    · rw [if_pos (by simp [he])]


/-- Witness for unpolled_device_not_polled: a device with no recorded
status is reported Not connected and its worker does nothing. -/
theorem unpolled_device_not_polled_witness :
    (get_connection_status [] 3).connected = false
    ∧ poll_single_ethernetip_device []
        (some { id := 3, enabled := true, polling_interval := some 1000 })
        [{ id := 9, config_id := 3, enabled := true }]
        (fun _ => true) none 0
      = ([], none) :=
  ⟨(unpolled_device_not_polled []
      { id := 3, enabled := true, polling_interval := some 1000 }
      [{ id := 9, config_id := 3, enabled := true }]
      (fun _ => true) none 0 (by decide)).2.1,
   (unpolled_device_not_polled []
      { id := 3, enabled := true, polling_interval := some 1000 }
      [{ id := 9, config_id := 3, enabled := true }]
      (fun _ => true) none 0 (by decide)).2.2.2.2.2⟩
